import Mathlib

/-!
Verification of the press-n-go publish pipeline (src/main.go).

The Go service is embedded shallowly:
* the filesystem under the storage root is an explicit `Fs` state (a list of
  existing directories plus an association list from paths to file contents),
  threaded through every handler that touches disk;
* the goldmark Markdown converter and the securecookie decoder are external
  libraries, so they enter as parameters: `convert : String → Except String String`
  is the result of `md.Convert`, and the decoded session cookie is an
  `Option (List (String × String))` (`none` covers both "no cookie" and
  "decode failed", the two early-return paths of `isAuthenticated`);
* the crypto/rand source is an `Option (List Nat)`: `some bytes` is a
  successful `rand.Read` into the 8-byte buffer, `none` a platform fault;
* Gin responses become small inductive result types carrying the same
  status distinction and message strings as the Go handlers.
-/

set_option autoImplicit false

namespace PressNGo

/-- A filesystem path, as a list of segments (`filepath.Join` of the parts). -/
abbrev Path := List String

/-- The on-disk state under the working directory: the set of directories that
exist and the files that exist, newest write first (a later `writeFile` on the
same path shadows the earlier content, as `os.WriteFile` truncates). -/
structure Fs where
  dirs : List Path
  files : List (Path × String)
deriving DecidableEq, Repr

/-- `os.MkdirAll`: ensures the directory exists (modelled as always succeeding
on the local filesystem). -/
def Fs.mkdirAll (fs : Fs) (p : Path) : Fs :=
  { fs with dirs := p :: fs.dirs }

/-- `os.WriteFile`: creates or truncates the file at `p` with content `c`. -/
def Fs.writeFile (fs : Fs) (p : Path) (c : String) : Fs :=
  { fs with files := (p, c) :: fs.files }

/-- First entry for `p` in a file table (the most recent write wins). -/
def Fs.lookupFile : List (Path × String) → Path → Option String
  | [], _ => none
  | (q, c) :: rest, p => if q = p then some c else Fs.lookupFile rest p

/-- Content of the file at `p`, if it exists. -/
def Fs.readFile (fs : Fs) (p : Path) : Option String :=
  Fs.lookupFile fs.files p

/-- `os.Stat` succeeding: some directory or file exists at `p`. -/
def Fs.pathExists (fs : Fs) (p : Path) : Prop :=
  p ∈ fs.dirs ∨ p ∈ fs.files.map Prod.fst

instance (fs : Fs) (p : Path) : Decidable (fs.pathExists p) := by
  unfold Fs.pathExists; infer_instance

/-- `os.RemoveAll`: removes `p` and everything below it, recursively. -/
def Fs.removeAll (fs : Fs) (p : Path) : Fs :=
  { dirs := fs.dirs.filter (fun d => ! p.isPrefixOf d),
    files := fs.files.filter (fun f => ! p.isPrefixOf f.1) }

/-- `strings.Contains(s, c)` for a single-character needle, the only way the
source uses it (needles `"."` and `"/"`). -/
def containsChar (s : String) (c : Char) : Prop :=
  c ∈ s.data

instance (s : String) (c : Char) : Decidable (containsChar s c) := by
  unfold containsChar; infer_instance

/-- The `Config` struct: the two environment-sourced credentials
(`PNG_USERNAME` / `PNG_PASSWORD`, empty-string defaults). -/
structure Config where
  username : String
  password : String
deriving DecidableEq, Repr

/-- The `UploadRequest` struct bound from the JSON body; `content` and `type`
carry `binding:"required"`, `themeCSS` is optional (empty when absent). -/
structure UploadRequest where
  content : String
  type : String
  themeCSS : String
deriving DecidableEq, Repr

/-- The `Page` struct returned by the listing: directory name and its
modification time (modelled as a `Nat` tick). -/
structure Page where
  id : String
  createdAt : Nat
deriving DecidableEq, Repr

/-- `isAuthenticated`: the session cookie after `securecookie.Decode`.
`none` is any of the early-return failures (no cookie, or decode/signature/
expiry error); `some kv` is the decoded key-value map. The Go map read
`cookieValue["authenticated"]` yields `""` for a missing key. -/
def isAuthenticated (decoded : Option (List (String × String))) : Bool :=
  match decoded with
  | none => false
  | some kv => ((kv.lookup "authenticated").getD "") == "true"

/-- Outcome of the `authRequired` middleware. -/
inductive GateResult where
  | proceed
  | redirectLogin
deriving DecidableEq, Repr

/-- The `authRequired` middleware decision:
`appConfig.Username == "" || appConfig.Password == "" || isAuthenticated(c)`
lets the request through, anything else redirects to `/login` and aborts. -/
def authRequired (cfg : Config) (decoded : Option (List (String × String))) : GateResult :=
  if cfg.username = "" ∨ cfg.password = "" ∨ isAuthenticated decoded = true then
    GateResult.proceed
  else
    GateResult.redirectLogin

/-- What a gated request produced: either the protected handler's own
response, or the login redirect issued by the aborting middleware. -/
inductive GateStep (α : Type) where
  | handled (resp : α)
  | redirect (location : String)
deriving DecidableEq, Repr

/-- A protected route: the middleware runs first; only when it proceeds does
the handler run against the filesystem, otherwise the state is untouched. -/
def runProtected {α : Type} (cfg : Config) (decoded : Option (List (String × String)))
    (handler : Fs → α × Fs) (fs : Fs) : GateStep α × Fs :=
  match authRequired cfg decoded with
  | GateResult.proceed => (GateStep.handled (handler fs).1, (handler fs).2)
  | GateResult.redirectLogin => (GateStep.redirect "/login", fs)

/-- Modelled from the spec (§4.1 gate policy), for comparison with the code:
"a route is open if `Credentials` are both empty, OR if `validate` succeeds
on the caller's token". -/
def specGateOpen (cfg : Config) (decoded : Option (List (String × String))) : Bool :=
  (cfg.username == "" && cfg.password == "") || isAuthenticated decoded

/-- The sixteen lowercase hex digits, in encoding order (Go's
`encoding/hex` declares `const hextable = "0123456789abcdef"`). -/
def hexDigits : List Char :=
  "0123456789abcdef".data

/-- One nibble to its lowercase hex character. -/
def hexDigit (n : Nat) : Char :=
  hexDigits.getD n '0'

/-- `hex.EncodeToString`'s character stream: each byte contributes
`hextable[b>>4]` then `hextable[b&0x0f]`. -/
def hexChars : List Nat → List Char
  | [] => []
  | b :: bs => hexDigit (b / 16) :: hexDigit (b % 16) :: hexChars bs

/-- `hex.EncodeToString` over a byte list (bytes as `Nat < 256`). -/
def encodeToString (bs : List Nat) : String :=
  String.mk (hexChars bs)

/-- `generatePageID`: draw 8 bytes from crypto/rand (`none` when the source
errors) and hex-encode them. It takes no view of existing pages: no
uniqueness check is possible from its inputs. -/
def generatePageID (entropy : Option (List Nat)) : Except String String :=
  match entropy with
  | none => Except.error "failed to generate random ID"
  | some randomBytes => Except.ok (encodeToString randomBytes)

/-- The `fmt.Sprintf` template wrapping a converted Markdown fragment:
`Sprintf(tpl, req.ThemeCSS, htmlContent)` is exactly this concatenation. -/
def htmlTemplate (themeCSS htmlContent : String) : String :=
  "<!DOCTYPE html>\n<html lang=\"en\">\n<head>\n    <meta charset=\"UTF-8\">\n    <meta name=\"viewport\" content=\"width=device-width, initial-scale=1.0\">\n    <title>Published Content</title>\n    <style>"
    ++ themeCSS
    ++ "</style>\n</head>\n<body><article class=\"markdown-body\">"
    ++ htmlContent
    ++ "</article></body>\n</html>"

/-- `createPageFile`: make `public/<id>`, write the raw source to
`source.txt`, then render (`md.Convert` for `type == "markdown"`, passthrough
otherwise) and write `index.html`. `convert` stands for `md.Convert`; its
`Except.error` is the only failure after the raw write. -/
def createPageFile (convert : String → Except String String)
    (pageID : String) (req : UploadRequest) (fs : Fs) : Except String Unit × Fs :=
  let folderPath : Path := ["public", pageID]
  let fs1 := fs.mkdirAll folderPath
  let fs2 := fs1.writeFile (folderPath ++ ["source.txt"]) req.content
  if req.type = "markdown" then
    match convert req.content with
    | Except.error e => (Except.error ("failed to convert markdown: " ++ e), fs2)
    | Except.ok htmlContent =>
        let finalContent := htmlTemplate req.themeCSS htmlContent
        (Except.ok (), fs2.writeFile (folderPath ++ ["index.html"]) finalContent)
  else
    (Except.ok (), fs2.writeFile (folderPath ++ ["index.html"]) req.content)

/-- Responses `handleUpload` can emit. -/
inductive UploadResult where
  | badRequest (error : String)
  | serverError (error : String)
  | ok (url : String)
deriving DecidableEq, Repr

/-- `ShouldBindJSON` on `UploadRequest` succeeds exactly when both
`binding:"required"` string fields are non-empty: the validator treats the
string zero value (absent field or explicit `""`) as missing. -/
def shouldBindJSON (req : UploadRequest) : Prop :=
  req.content ≠ "" ∧ req.type ≠ ""

instance (req : UploadRequest) : Decidable (shouldBindJSON req) := by
  unfold shouldBindJSON; infer_instance

/-- `handleUpload`: bind the JSON body, mint an id from the entropy source,
create the page files, and answer with the published URL `/<id>/`. -/
def handleUpload (convert : String → Except String String)
    (entropy : Option (List Nat)) (req : UploadRequest) (fs : Fs) : UploadResult × Fs :=
  if shouldBindJSON req then
    match generatePageID entropy with
    | Except.error e => (UploadResult.serverError e, fs)
    | Except.ok pageID =>
        match createPageFile convert pageID req fs with
        | (Except.error e, fs') => (UploadResult.serverError e, fs')
        | (Except.ok _, fs') => (UploadResult.ok ("/" ++ pageID ++ "/"), fs')
  else
    (UploadResult.badRequest "Key: validation for required field failed", fs)

/-- One `os.DirEntry` of `os.ReadDir("public")`: its name, whether it is a
directory, and the result of `entry.Info()` (`none` when the stat fails, e.g.
the entry vanished between enumeration and stat; then the mod time). -/
structure DirEntry where
  name : String
  isDir : Bool
  info : Option Nat
deriving DecidableEq, Repr

/-- The `handleListPages` loop over the enumerated entries: keep directories
not named `index.html`; a failing `Info()` is logged and skipped with
`continue`. -/
def collectPages : List DirEntry → List Page
  | [] => []
  | e :: rest =>
    if e.isDir = true ∧ e.name ≠ "index.html" then
      match e.info with
      | none => collectPages rest
      | some t => { id := e.name, createdAt := t } :: collectPages rest
    else
      collectPages rest

/-- `handleListPages`: a failing `os.ReadDir` is a 500; otherwise the loop's
result is returned with status 200. -/
def handleListPages (entries : Except String (List DirEntry)) : Except String (List Page) :=
  match entries with
  | Except.error _ => Except.error "Could not list pages"
  | Except.ok es => Except.ok (collectPages es)

/-- Responses `handleDeletePage` can emit. -/
inductive DeleteResult where
  | badRequest (error : String)
  | notFound (error : String)
  | ok (message : String)
deriving DecidableEq, Repr

/-- `handleDeletePage`: reject an empty id or one containing `.` or `/`,
404 when nothing exists at `public/<id>`, else `os.RemoveAll` it. -/
def handleDeletePage (pageID : String) (fs : Fs) : DeleteResult × Fs :=
  if pageID = "" ∨ containsChar pageID '.' ∨ containsChar pageID '/' then
    (DeleteResult.badRequest "Invalid page ID", fs)
  else
    let folderPath : Path := ["public", pageID]
    if fs.pathExists folderPath then
      (DeleteResult.ok "Page deleted successfully", fs.removeAll folderPath)
    else
      (DeleteResult.notFound "Page not found", fs)

/-- Responses `handleDownloadSource` can emit; `attachment` carries the
streamed file content and the download filename passed to
`c.FileAttachment`. -/
inductive SourceResult where
  | badRequest (error : String)
  | notFound (error : String)
  | attachment (content : String) (filename : String)
deriving DecidableEq, Repr

/-- `handleDownloadSource`: same id validation as delete, 404 when
`public/<id>/source.txt` is absent, else stream it as
`<id>_source.txt`. -/
def handleDownloadSource (pageID : String) (fs : Fs) : SourceResult :=
  if pageID = "" ∨ containsChar pageID '.' ∨ containsChar pageID '/' then
    SourceResult.badRequest "Invalid page ID"
  else
    let sourcePath : Path := ["public", pageID, "source.txt"]
    match fs.readFile sourcePath with
    | none => SourceResult.notFound "Source file not found"
    | some content => SourceResult.attachment content (pageID ++ "_source.txt")

/-! ## Helper lemmas about the filesystem model -/

theorem Fs.readFile_writeFile_self (fs : Fs) (p : Path) (c : String) :
    (fs.writeFile p c).readFile p = some c := by
  simp [Fs.writeFile, Fs.readFile, Fs.lookupFile]

theorem Fs.readFile_writeFile_ne (fs : Fs) (p q : Path) (c : String) (h : p ≠ q) :
    (fs.writeFile p c).readFile q = fs.readFile q := by
  simp [Fs.writeFile, Fs.readFile, Fs.lookupFile, h]

theorem Fs.readFile_mkdirAll (fs : Fs) (p q : Path) :
    (fs.mkdirAll p).readFile q = fs.readFile q := rfl

theorem Fs.not_pathExists_removeAll (fs : Fs) (p q : Path)
    (h : p.isPrefixOf q = true) : ¬ (fs.removeAll p).pathExists q := by
  intro hex
  cases hex with
  | inl hd =>
      have hm := List.mem_filter.mp hd
      rw [h] at hm
      simp at hm
  | inr hf =>
      obtain ⟨f, hfm, hfq⟩ := List.mem_map.mp hf
      have hm := List.mem_filter.mp hfm
      rw [hfq, h] at hm
      simp at hm

theorem stringNeNil (s : String) (n : Nat) (hlen : s.length = n) (hn : n ≠ 0) :
    s ≠ "" := by
  intro he
  rw [he] at hlen
  exact hn (hlen.symm.trans rfl)

theorem notContainsOfHex (s : String) (c : Char)
    (hhex : ∀ d ∈ s.data, d ∈ hexDigits) (hc : c ∉ hexDigits) :
    ¬ containsChar s c := fun h => hc (hhex c h)

/-! ## C1 — the authentication gate -/

/-- C1 (counterexample): with `PNG_USERNAME` empty but `PNG_PASSWORD` set and
no (or an invalid) session cookie, `authRequired` lets the request proceed,
yet the claim's gate — credentials *both* empty, or `validate` succeeding —
says the caller must be redirected. -/
theorem authRequired_counterexample_one_empty_credential :
    authRequired ⟨"", "secret"⟩ none = GateResult.proceed ∧
    specGateOpen ⟨"", "secret"⟩ none = false := by
  constructor
  · rfl
  · rfl

/-- C1 (amended): for every request to a protected route, the handler runs
the protected operation if and only if at least one of the configured
credentials is empty (username or password), or the decoded session cookie
carries `authenticated == "true"`; in every other case the caller is
redirected to `/login` and the handler performs no side effects (the
filesystem state is returned untouched). -/
theorem runProtected_gate {α : Type} (cfg : Config)
    (decoded : Option (List (String × String))) (handler : Fs → α × Fs) (fs : Fs) :
    runProtected cfg decoded handler fs =
      if cfg.username = "" ∨ cfg.password = "" ∨ isAuthenticated decoded = true then
        (GateStep.handled (handler fs).1, (handler fs).2)
      else
        (GateStep.redirect "/login", fs) := by
  by_cases h : cfg.username = "" ∨ cfg.password = "" ∨ isAuthenticated decoded = true
  · rw [if_pos h, runProtected, authRequired, if_pos h]
  · rw [if_neg h, runProtected, authRequired, if_neg h]

/-- Witness for the amended gate: with both credentials configured and no
valid cookie, a protected request is redirected and the filesystem is
untouched. -/
theorem runProtected_gate_witness :
    runProtected ⟨"admin", "pw"⟩ none (fun fs => (0, fs)) ⟨[], []⟩ =
      (GateStep.redirect "/login", (⟨[], []⟩ : Fs)) := by
  rw [runProtected_gate ⟨"admin", "pw"⟩ none (fun fs => (0, fs)) ⟨[], []⟩]
  rfl

/-! ## C5 — page id generation -/

/-- C5: a successful `generatePageID` — possible exactly when the random
source delivers the 8 requested bytes — returns a 16-character string of
lowercase hexadecimal digits; when the source fails, the error is
propagated. `generatePageID` receives no view of existing pages, so no
uniqueness check is performed. -/
theorem generatePageID_sixteen_lowercase_hex :
    (∀ randomBytes : List Nat, randomBytes.length = 8 → (∀ b ∈ randomBytes, b < 256) →
      ∃ s, generatePageID (some randomBytes) = Except.ok s ∧
        s.length = 16 ∧ ∀ c ∈ s.data, c ∈ hexDigits) ∧
    generatePageID none = Except.error "failed to generate random ID" := by
  constructor
  · intro randomBytes hlen hbytes
    refine ⟨encodeToString randomBytes, rfl, ?_, ?_⟩
    · have hgen : ∀ bs : List Nat, (hexChars bs).length = 2 * bs.length := by
        intro bs
        induction bs with
        | nil => rfl
        | cons b t ih => simp [hexChars, ih]; omega
      rw [encodeToString, String.length_mk, hgen, hlen]
    · have hdig : ∀ n : Nat, n < 16 → hexDigit n ∈ hexDigits := by
        intro n hn
        interval_cases n <;> decide
      have hgen : ∀ bs : List Nat, (∀ b ∈ bs, b < 256) →
          ∀ c ∈ hexChars bs, c ∈ hexDigits := by
        intro bs
        induction bs with
        | nil => intro _ c hc; cases hc
        | cons b t ih =>
            intro hb c hc
            have hblt : b < 256 := hb b (by simp)
            rw [hexChars] at hc
            rcases List.mem_cons.mp hc with hc | hc
            · rw [hc]; exact hdig _ (Nat.div_lt_of_lt_mul (by omega))
            rcases List.mem_cons.mp hc with hc | hc
            · rw [hc]; exact hdig _ (Nat.mod_lt _ (by norm_num))
            · exact ih (fun x hx => hb x (List.mem_cons_of_mem _ hx)) c hc
      intro c hc
      exact hgen randomBytes hbytes c hc
  · rfl

/-- Witness for C5 at a concrete draw of eight bytes and at a failing
source. -/
theorem generatePageID_sixteen_lowercase_hex_witness :
    (∃ s, generatePageID (some [0, 17, 34, 51, 68, 85, 102, 255]) = Except.ok s ∧
      s.length = 16 ∧ ∀ c ∈ s.data, c ∈ hexDigits) ∧
    generatePageID none = Except.error "failed to generate random ID" :=
  ⟨generatePageID_sixteen_lowercase_hex.1 [0, 17, 34, 51, 68, 85, 102, 255]
      (by decide) (by decide),
   generatePageID_sixteen_lowercase_hex.2⟩

/-! ## C10 — required-field binding -/

/-- C10: an upload whose `content` or `type` is the empty string fails the
`binding:"required"` validation and is answered with 400; the filesystem is
returned untouched, so no page is created. -/
theorem handleUpload_empty_required_field_rejected
    (convert : String → Except String String) (entropy : Option (List Nat))
    (req : UploadRequest) (fs : Fs) (h : req.content = "" ∨ req.type = "") :
    handleUpload convert entropy req fs =
      (UploadResult.badRequest "Key: validation for required field failed", fs) := by
  rw [handleUpload, if_neg]
  intro hb
  cases h with
  | inl hc => exact hb.1 hc
  | inr ht => exact hb.2 ht

/-- Witness for C10: an upload with non-empty content but empty `type` is
rejected and the (empty) filesystem is unchanged. -/
theorem handleUpload_empty_required_field_rejected_witness :
    handleUpload (fun s => Except.ok s) (some [1, 2, 3, 4, 5, 6, 7, 8])
        ⟨"hello", "", ""⟩ ⟨[], []⟩ =
      (UploadResult.badRequest "Key: validation for required field failed", ⟨[], []⟩) :=
  handleUpload_empty_required_field_rejected (fun s => Except.ok s)
    (some [1, 2, 3, 4, 5, 6, 7, 8]) ⟨"hello", "", ""⟩ ⟨[], []⟩ (Or.inr rfl)

/-! ## C3 — html uploads are persisted verbatim -/

/-- C3: for every upload with `type = html`, `createPageFile` succeeds and
both the raw-source file and the rendered file hold the submitted `content`
byte-for-byte — the converter is never consulted and no transformation is
applied. -/
theorem createPageFile_html_verbatim (convert : String → Except String String)
    (pageID : String) (req : UploadRequest) (fs : Fs) (ht : req.type = "html") :
    (createPageFile convert pageID req fs).1 = Except.ok () ∧
    (createPageFile convert pageID req fs).2.readFile ["public", pageID, "source.txt"] =
      some req.content ∧
    (createPageFile convert pageID req fs).2.readFile ["public", pageID, "index.html"] =
      some req.content := by
  have hne : req.type ≠ "markdown" := by rw [ht]; decide
  have hpq : (["public", pageID, "index.html"] : Path) ≠ ["public", pageID, "source.txt"] := by
    simp
  refine ⟨?_, ?_, ?_⟩
  · simp [createPageFile, hne]
  · simp only [createPageFile, if_neg hne]
    rw [show (["public", pageID] : Path) ++ ["source.txt"] = ["public", pageID, "source.txt"]
          from rfl,
        show (["public", pageID] : Path) ++ ["index.html"] = ["public", pageID, "index.html"]
          from rfl,
        Fs.readFile_writeFile_ne _ _ _ _ hpq, Fs.readFile_writeFile_self]
  · simp only [createPageFile, if_neg hne]
    rw [show (["public", pageID] : Path) ++ ["index.html"] = ["public", pageID, "index.html"]
          from rfl,
        Fs.readFile_writeFile_self]

/-- Witness for C3: a concrete html upload stores `"<b>hi</b>"` in both
files. -/
theorem createPageFile_html_verbatim_witness :
    (createPageFile (fun s => Except.ok s) "0011223344556677"
        ⟨"<b>hi</b>", "html", ""⟩ ⟨[], []⟩).1 = Except.ok () ∧
    (createPageFile (fun s => Except.ok s) "0011223344556677"
        ⟨"<b>hi</b>", "html", ""⟩ ⟨[], []⟩).2.readFile
        ["public", "0011223344556677", "source.txt"] = some "<b>hi</b>" ∧
    (createPageFile (fun s => Except.ok s) "0011223344556677"
        ⟨"<b>hi</b>", "html", ""⟩ ⟨[], []⟩).2.readFile
        ["public", "0011223344556677", "index.html"] = some "<b>hi</b>" :=
  createPageFile_html_verbatim (fun s => Except.ok s) "0011223344556677"
    ⟨"<b>hi</b>", "html", ""⟩ ⟨[], []⟩ rfl

/-! ## C4 — delete validation, 404, and recursive removal -/

/-- C4: `handleDeletePage` answers 400 for an id containing `.` or `/`
leaving the filesystem untouched whether or not a matching directory exists;
for a well-formed id with nothing at `public/<id>` it answers 404 leaving
the filesystem untouched; otherwise it answers 200 and removes the
directory together with every path below it. -/
theorem handleDeletePage_validation_then_remove :
    (∀ (pageID : String) (fs : Fs),
        containsChar pageID '.' ∨ containsChar pageID '/' →
        handleDeletePage pageID fs = (DeleteResult.badRequest "Invalid page ID", fs)) ∧
    (∀ (pageID : String) (fs : Fs),
        pageID ≠ "" → ¬ containsChar pageID '.' → ¬ containsChar pageID '/' →
        ¬ fs.pathExists ["public", pageID] →
        handleDeletePage pageID fs = (DeleteResult.notFound "Page not found", fs)) ∧
    (∀ (pageID : String) (fs : Fs),
        pageID ≠ "" → ¬ containsChar pageID '.' → ¬ containsChar pageID '/' →
        fs.pathExists ["public", pageID] →
        (handleDeletePage pageID fs).1 = DeleteResult.ok "Page deleted successfully" ∧
        ∀ p : Path, (["public", pageID] : Path).isPrefixOf p = true →
          ¬ (handleDeletePage pageID fs).2.pathExists p) := by
  refine ⟨?_, ?_, ?_⟩
  · intro pageID fs h
    simp only [handleDeletePage]
    rw [if_pos (Or.inr h)]
  · intro pageID fs h0 h1 h2 h3
    have hval : ¬ (pageID = "" ∨ containsChar pageID '.' ∨ containsChar pageID '/') := by
      rintro (h | h | h)
      exacts [h0 h, h1 h, h2 h]
    simp only [handleDeletePage]
    rw [if_neg hval, if_neg h3]
  · intro pageID fs h0 h1 h2 h3
    have hval : ¬ (pageID = "" ∨ containsChar pageID '.' ∨ containsChar pageID '/') := by
      rintro (h | h | h)
      exacts [h0 h, h1 h, h2 h]
    have hred : handleDeletePage pageID fs =
        (DeleteResult.ok "Page deleted successfully", fs.removeAll ["public", pageID]) := by
      simp only [handleDeletePage]
      rw [if_neg hval, if_pos h3]
    refine ⟨by rw [hred], ?_⟩
    intro p hp
    rw [hred]
    exact Fs.not_pathExists_removeAll fs _ p hp

/-- Witness for C4: a 400 on `"a.b"` even though `public/a.b` exists, a 404
on a missing page, and a deletion that removes the directory and the file
inside it. -/
theorem handleDeletePage_validation_then_remove_witness :
    handleDeletePage "a.b" ⟨[["public", "a.b"]], []⟩ =
      (DeleteResult.badRequest "Invalid page ID", ⟨[["public", "a.b"]], []⟩) ∧
    handleDeletePage "0011223344556677" ⟨[], []⟩ =
      (DeleteResult.notFound "Page not found", ⟨[], []⟩) ∧
    (handleDeletePage "0011223344556677"
        ⟨[["public", "0011223344556677"]],
         [(["public", "0011223344556677", "source.txt"], "hi")]⟩).1 =
      DeleteResult.ok "Page deleted successfully" ∧
    ¬ (handleDeletePage "0011223344556677"
        ⟨[["public", "0011223344556677"]],
         [(["public", "0011223344556677", "source.txt"], "hi")]⟩).2.pathExists
        ["public", "0011223344556677", "source.txt"] :=
  ⟨handleDeletePage_validation_then_remove.1 "a.b" ⟨[["public", "a.b"]], []⟩
      (Or.inl (by decide)),
   handleDeletePage_validation_then_remove.2.1 "0011223344556677" ⟨[], []⟩
      (by decide) (by decide) (by decide) (by decide),
   (handleDeletePage_validation_then_remove.2.2 "0011223344556677"
      ⟨[["public", "0011223344556677"]],
       [(["public", "0011223344556677", "source.txt"], "hi")]⟩
      (by decide) (by decide) (by decide) (by decide)).1,
   (handleDeletePage_validation_then_remove.2.2 "0011223344556677"
      ⟨[["public", "0011223344556677"]],
       [(["public", "0011223344556677", "source.txt"], "hi")]⟩
      (by decide) (by decide) (by decide) (by decide)).2
      ["public", "0011223344556677", "source.txt"] (by decide)⟩

/-! ## C6 — listing pages -/

/-- C6: on a successful enumeration, `handleListPages` returns one entry per
directory entry that is a directory and is not named `index.html`, with the
name as `id` and the modification time as `createdAt`; an entry whose stat
fails contributes nothing while the rest of the listing is still returned
with status 200. -/
theorem handleListPages_one_entry_per_subdirectory (entries : List DirEntry) :
    handleListPages (Except.ok entries) =
      Except.ok (entries.filterMap (fun e =>
        if e.isDir = true ∧ e.name ≠ "index.html" then
          e.info.map (fun t => { id := e.name, createdAt := t })
        else none)) := by
  rw [handleListPages]
  congr 1
  induction entries with
  | nil => rfl
  | cons e rest ih =>
      by_cases h : e.isDir = true ∧ e.name ≠ "index.html"
      · cases hi : e.info with
        | none => simp [collectPages, List.filterMap_cons, h, hi, ih]
        | some t => simp [collectPages, List.filterMap_cons, h, hi, ih]
      · simp [collectPages, List.filterMap_cons, h, ih]

/-! ## C2 — round-trip through create and getSource -/

/-- In every branch of `createPageFile` the raw write happens first, so the
resulting state always maps `public/<id>/source.txt` to the submitted
content. -/
theorem createPageFile_source_written (convert : String → Except String String)
    (pageID : String) (req : UploadRequest) (fs : Fs) :
    (createPageFile convert pageID req fs).2.readFile ["public", pageID, "source.txt"] =
      some req.content := by
  have hpq : (["public", pageID, "index.html"] : Path) ≠ ["public", pageID, "source.txt"] := by
    simp
  have happ : (["public", pageID] : Path) ++ ["source.txt"] = ["public", pageID, "source.txt"] :=
    rfl
  have happ' : (["public", pageID] : Path) ++ ["index.html"] = ["public", pageID, "index.html"] :=
    rfl
  by_cases ht : req.type = "markdown"
  · simp only [createPageFile, if_pos ht]
    cases hc : convert req.content with
    | error e => rw [happ, Fs.readFile_writeFile_self]
    | ok htmlContent =>
        rw [happ, happ', Fs.readFile_writeFile_ne _ _ _ _ hpq, Fs.readFile_writeFile_self]
  · simp only [createPageFile, if_neg ht]
    rw [happ, happ', Fs.readFile_writeFile_ne _ _ _ _ hpq, Fs.readFile_writeFile_self]

/-- C2: for every page id (16 lowercase hex characters, per the data model),
raw content and rendering, after `createPageFile` succeeds,
`handleDownloadSource` on the same id passes validation, finds the source
file, and streams back exactly the uploaded bytes as an attachment named
`<id>_source.txt`. -/
theorem handleDownloadSource_roundtrip (convert : String → Except String String)
    (pageID : String) (req : UploadRequest) (fs fs' : Fs)
    (hlen : pageID.length = 16) (hhex : ∀ c ∈ pageID.data, c ∈ hexDigits)
    (hok : createPageFile convert pageID req fs = (Except.ok (), fs')) :
    handleDownloadSource pageID fs' =
      SourceResult.attachment req.content (pageID ++ "_source.txt") := by
  have h0 : pageID ≠ "" := stringNeNil pageID 16 hlen (by decide)
  have h1 : ¬ containsChar pageID '.' := notContainsOfHex pageID '.' hhex (by decide)
  have h2 : ¬ containsChar pageID '/' := notContainsOfHex pageID '/' hhex (by decide)
  have hval : ¬ (pageID = "" ∨ containsChar pageID '.' ∨ containsChar pageID '/') := by
    rintro (h | h | h)
    exacts [h0 h, h1 h, h2 h]
  have hsrc := createPageFile_source_written convert pageID req fs
  rw [congrArg Prod.snd hok] at hsrc
  simp only [handleDownloadSource]
  rw [if_neg hval, hsrc]

/-- Witness for C2 at a concrete id, content and filesystem. -/
theorem handleDownloadSource_roundtrip_witness :
    handleDownloadSource "0123456789abcdef"
        ⟨[["public", "0123456789abcdef"]],
         [(["public", "0123456789abcdef", "index.html"], "hello world"),
          (["public", "0123456789abcdef", "source.txt"], "hello world")]⟩ =
      SourceResult.attachment "hello world" "0123456789abcdef_source.txt" :=
  handleDownloadSource_roundtrip (fun s => Except.ok s) "0123456789abcdef"
    ⟨"hello world", "html", ""⟩ ⟨[], []⟩
    ⟨[["public", "0123456789abcdef"]],
     [(["public", "0123456789abcdef", "index.html"], "hello world"),
      (["public", "0123456789abcdef", "source.txt"], "hello world")]⟩
    (by decide) (by decide) rfl

/-! ## C7 — the markdown document wrapper -/

/-- C7: for every upload with `type = markdown` whose conversion succeeds,
the persisted rendered file is the standalone document whose head carries a
`<style>` block containing `themeCSS` verbatim, followed in the body by an
`<article>` element containing the converted fragment. -/
theorem createPageFile_markdown_document (convert : String → Except String String)
    (pageID : String) (req : UploadRequest) (fs : Fs) (htmlContent : String)
    (ht : req.type = "markdown") (hc : convert req.content = Except.ok htmlContent) :
    (createPageFile convert pageID req fs).1 = Except.ok () ∧
    (createPageFile convert pageID req fs).2.readFile ["public", pageID, "index.html"] =
      some ("<!DOCTYPE html>\n<html lang=\"en\">\n<head>\n    <meta charset=\"UTF-8\">\n    <meta name=\"viewport\" content=\"width=device-width, initial-scale=1.0\">\n    <title>Published Content</title>\n    "
        ++ ("<style>" ++ req.themeCSS ++ "</style>")
        ++ "\n</head>\n<body>"
        ++ ("<article class=\"markdown-body\">" ++ htmlContent ++ "</article>")
        ++ "</body>\n</html>") := by
  have happ' : (["public", pageID] : Path) ++ ["index.html"] = ["public", pageID, "index.html"] :=
    rfl
  have hdoc : htmlTemplate req.themeCSS htmlContent =
      "<!DOCTYPE html>\n<html lang=\"en\">\n<head>\n    <meta charset=\"UTF-8\">\n    <meta name=\"viewport\" content=\"width=device-width, initial-scale=1.0\">\n    <title>Published Content</title>\n    "
        ++ ("<style>" ++ req.themeCSS ++ "</style>")
        ++ "\n</head>\n<body>"
        ++ ("<article class=\"markdown-body\">" ++ htmlContent ++ "</article>")
        ++ "</body>\n</html>" := by
    rw [htmlTemplate,
        show ("<!DOCTYPE html>\n<html lang=\"en\">\n<head>\n    <meta charset=\"UTF-8\">\n    <meta name=\"viewport\" content=\"width=device-width, initial-scale=1.0\">\n    <title>Published Content</title>\n    <style>" : String)
          = "<!DOCTYPE html>\n<html lang=\"en\">\n<head>\n    <meta charset=\"UTF-8\">\n    <meta name=\"viewport\" content=\"width=device-width, initial-scale=1.0\">\n    <title>Published Content</title>\n    "
            ++ "<style>" from rfl,
        show ("</style>\n</head>\n<body><article class=\"markdown-body\">" : String)
          = "</style>" ++ "\n</head>\n<body>" ++ "<article class=\"markdown-body\">" from rfl,
        show ("</article></body>\n</html>" : String) = "</article>" ++ "</body>\n</html>"
          from rfl]
    simp only [String.append_assoc]
  constructor
  · simp only [createPageFile, if_pos ht, hc]
  · simp only [createPageFile, if_pos ht, hc]
    rw [happ', Fs.readFile_writeFile_self, hdoc]

/-- Witness for C7: a concrete markdown upload whose converter yields
`<h1>t</h1>` is wrapped with the theme and the article element. -/
theorem createPageFile_markdown_document_witness :
    (createPageFile (fun _ => Except.ok "<h1>t</h1>") "0011223344556677"
        ⟨"# t", "markdown", "h1 color red"⟩ ⟨[], []⟩).1 = Except.ok () ∧
    (createPageFile (fun _ => Except.ok "<h1>t</h1>") "0011223344556677"
        ⟨"# t", "markdown", "h1 color red"⟩ ⟨[], []⟩).2.readFile
        ["public", "0011223344556677", "index.html"] =
      some ("<!DOCTYPE html>\n<html lang=\"en\">\n<head>\n    <meta charset=\"UTF-8\">\n    <meta name=\"viewport\" content=\"width=device-width, initial-scale=1.0\">\n    <title>Published Content</title>\n    "
        ++ ("<style>" ++ "h1 color red" ++ "</style>")
        ++ "\n</head>\n<body>"
        ++ ("<article class=\"markdown-body\">" ++ "<h1>t</h1>" ++ "</article>")
        ++ "</body>\n</html>") :=
  createPageFile_markdown_document (fun _ => Except.ok "<h1>t</h1>") "0011223344556677"
    ⟨"# t", "markdown", "h1 color red"⟩ ⟨[], []⟩ "<h1>t</h1>" rfl rfl

/-! ## C8 — create is not atomic -/

/-- C8: when Markdown conversion fails, `createPageFile` surfaces the error
but the directory it already created and the raw-source file it already
wrote stay on disk, while the rendered file is left exactly as it was
before the call — nothing is rolled back. -/
theorem createPageFile_convert_failure_partial (convert : String → Except String String)
    (pageID : String) (req : UploadRequest) (fs : Fs) (e : String)
    (ht : req.type = "markdown") (hc : convert req.content = Except.error e) :
    (createPageFile convert pageID req fs).1 =
      Except.error ("failed to convert markdown: " ++ e) ∧
    (createPageFile convert pageID req fs).2.pathExists ["public", pageID] ∧
    (createPageFile convert pageID req fs).2.readFile ["public", pageID, "source.txt"] =
      some req.content ∧
    (createPageFile convert pageID req fs).2.readFile ["public", pageID, "index.html"] =
      fs.readFile ["public", pageID, "index.html"] := by
  have happ : (["public", pageID] : Path) ++ ["source.txt"] = ["public", pageID, "source.txt"] :=
    rfl
  have hqp : (["public", pageID, "source.txt"] : Path) ≠ ["public", pageID, "index.html"] := by
    simp
  refine ⟨?_, ?_, ?_, ?_⟩
  · simp only [createPageFile, if_pos ht, hc]
  · simp only [createPageFile, if_pos ht, hc]
    exact Or.inl (by simp [Fs.writeFile, Fs.mkdirAll])
  · simp only [createPageFile, if_pos ht, hc]
    rw [happ, Fs.readFile_writeFile_self]
  · simp only [createPageFile, if_pos ht, hc]
    rw [happ, Fs.readFile_writeFile_ne _ _ _ _ hqp, Fs.readFile_mkdirAll]

/-- Witness for C8: a failing conversion leaves `public/<id>` and its
`source.txt` behind on an initially empty filesystem, with no rendered
file. -/
theorem createPageFile_convert_failure_partial_witness :
    (createPageFile (fun _ => Except.error "bad markdown") "0011223344556677"
        ⟨"# t", "markdown", ""⟩ ⟨[], []⟩).1 =
      Except.error "failed to convert markdown: bad markdown" ∧
    (createPageFile (fun _ => Except.error "bad markdown") "0011223344556677"
        ⟨"# t", "markdown", ""⟩ ⟨[], []⟩).2.pathExists ["public", "0011223344556677"] ∧
    (createPageFile (fun _ => Except.error "bad markdown") "0011223344556677"
        ⟨"# t", "markdown", ""⟩ ⟨[], []⟩).2.readFile
        ["public", "0011223344556677", "source.txt"] = some "# t" ∧
    (createPageFile (fun _ => Except.error "bad markdown") "0011223344556677"
        ⟨"# t", "markdown", ""⟩ ⟨[], []⟩).2.readFile
        ["public", "0011223344556677", "index.html"] = none :=
  createPageFile_convert_failure_partial (fun _ => Except.error "bad markdown")
    "0011223344556677" ⟨"# t", "markdown", ""⟩ ⟨[], []⟩ "bad markdown" rfl rfl

/-! ## C9 — unknown upload types fall through to the html path -/

/-- C9: an upload whose non-empty `type` is anything other than the exact
string `"markdown"` (for example `"text"` or `"HTML"`) passes binding, is
accepted with the published URL, and is persisted exactly as `type = html`
would be: no membership check on `type` exists, and both files hold
`content` verbatim. -/
theorem handleUpload_unknown_type_as_html (convert : String → Except String String)
    (randomBytes : List Nat) (req : UploadRequest) (fs : Fs)
    (hcontent : req.content ≠ "") (htype : req.type ≠ "") (hm : req.type ≠ "markdown") :
    handleUpload convert (some randomBytes) req fs =
      (UploadResult.ok ("/" ++ encodeToString randomBytes ++ "/"),
        (createPageFile convert (encodeToString randomBytes) req fs).2) ∧
    createPageFile convert (encodeToString randomBytes) req fs =
      createPageFile convert (encodeToString randomBytes)
        ⟨req.content, "html", req.themeCSS⟩ fs ∧
    (createPageFile convert (encodeToString randomBytes) req fs).2.readFile
        ["public", encodeToString randomBytes, "source.txt"] = some req.content ∧
    (createPageFile convert (encodeToString randomBytes) req fs).2.readFile
        ["public", encodeToString randomBytes, "index.html"] = some req.content := by
  have hbind : shouldBindJSON req := ⟨hcontent, htype⟩
  have hcreate : createPageFile convert (encodeToString randomBytes) req fs =
      (Except.ok (),
        ((fs.mkdirAll ["public", encodeToString randomBytes]).writeFile
            (["public", encodeToString randomBytes] ++ ["source.txt"]) req.content).writeFile
          (["public", encodeToString randomBytes] ++ ["index.html"]) req.content) := by
    simp only [createPageFile, if_neg hm]
  refine ⟨?_, ?_, ?_, ?_⟩
  · simp only [handleUpload, if_pos hbind, generatePageID]
    rw [hcreate]
  · simp only [createPageFile, if_neg hm,
        if_neg (show ("html" : String) ≠ "markdown" by decide)]
  · exact createPageFile_source_written convert (encodeToString randomBytes) req fs
  · simp only [createPageFile, if_neg hm]
    rw [show (["public", encodeToString randomBytes] : Path) ++ ["index.html"]
          = ["public", encodeToString randomBytes, "index.html"] from rfl,
        Fs.readFile_writeFile_self]

/-- Witness for C9: a `type = "text"` upload succeeds even with a converter
that always fails, publishing `/0102030405060708/` with the text stored
verbatim in both files. -/
theorem handleUpload_unknown_type_as_html_witness :
    handleUpload (fun _ => Except.error "boom") (some [1, 2, 3, 4, 5, 6, 7, 8])
        ⟨"plain text", "text", ""⟩ ⟨[], []⟩ =
      (UploadResult.ok "/0102030405060708/",
        (createPageFile (fun _ => Except.error "boom") "0102030405060708"
          ⟨"plain text", "text", ""⟩ ⟨[], []⟩).2) ∧
    (createPageFile (fun _ => Except.error "boom") "0102030405060708"
        ⟨"plain text", "text", ""⟩ ⟨[], []⟩).2.readFile
        ["public", "0102030405060708", "source.txt"] = some "plain text" ∧
    (createPageFile (fun _ => Except.error "boom") "0102030405060708"
        ⟨"plain text", "text", ""⟩ ⟨[], []⟩).2.readFile
        ["public", "0102030405060708", "index.html"] = some "plain text" :=
  ⟨(handleUpload_unknown_type_as_html (fun _ => Except.error "boom") [1, 2, 3, 4, 5, 6, 7, 8]
      ⟨"plain text", "text", ""⟩ ⟨[], []⟩ (by decide) (by decide) (by decide)).1,
   (handleUpload_unknown_type_as_html (fun _ => Except.error "boom") [1, 2, 3, 4, 5, 6, 7, 8]
      ⟨"plain text", "text", ""⟩ ⟨[], []⟩ (by decide) (by decide) (by decide)).2.2.1,
   (handleUpload_unknown_type_as_html (fun _ => Except.error "boom") [1, 2, 3, 4, 5, 6, 7, 8]
      ⟨"plain text", "text", ""⟩ ⟨[], []⟩ (by decide) (by decide) (by decide)).2.2.2⟩

/-- Witness for C6: a directory named `index.html` is excluded, an entry
with a failing stat is skipped, a plain file is skipped, and the two real
page directories are both returned. -/
theorem handleListPages_one_entry_per_subdirectory_witness :
    handleListPages (Except.ok
        [⟨"aabbccddeeff0011", true, some 5⟩, ⟨"index.html", true, some 1⟩,
         ⟨"26df913b9bb40db2", true, none⟩, ⟨"notes.txt", false, some 2⟩,
         ⟨"57b1fc4b13b7d688", true, some 9⟩]) =
      Except.ok [⟨"aabbccddeeff0011", 5⟩, ⟨"57b1fc4b13b7d688", 9⟩] := by
  rw [handleListPages_one_entry_per_subdirectory]
  rfl

end PressNGo
